import Mathlib

/-!
A shallow embedding of `cisco_additional_facts.py` (an Ansible fact-gathering
module for Cisco devices) together with theorems checking the module's
natural-language specification against the code.

Python strings are modelled as Lean `String`s (ASCII semantics); Python list
indexing, tuple unpacking, `ipaddress.IPv4Address` construction and failing
device commands are modelled with `Except PyErr`; a raised exception is an
`Except.error`.  The external command runner (`run_commands`) is modelled by a
`Device` oracle giving each command's output text and whether it fails.
-/

namespace CiscoFacts

/-- Kinds of Python exceptions the embedded code can raise. -/
inductive PyErr where
  | indexError
  | valueError
  | nameError
  | typeError
  | addressError
  | commandError
deriving Repr, DecidableEq

/-! ## Python string primitives (ASCII semantics) -/

/-- ASCII lower-casing of one character, as Python `str.lower` does on ASCII. -/
def pyCharLower (c : Char) : Char :=
  match c with
  | 'A' => 'a' | 'B' => 'b' | 'C' => 'c' | 'D' => 'd' | 'E' => 'e' | 'F' => 'f'
  | 'G' => 'g' | 'H' => 'h' | 'I' => 'i' | 'J' => 'j' | 'K' => 'k' | 'L' => 'l'
  | 'M' => 'm' | 'N' => 'n' | 'O' => 'o' | 'P' => 'p' | 'Q' => 'q' | 'R' => 'r'
  | 'S' => 's' | 'T' => 't' | 'U' => 'u' | 'V' => 'v' | 'W' => 'w' | 'X' => 'x'
  | 'Y' => 'y' | 'Z' => 'z'
  | c => c

/-- ASCII upper-casing of one character, as Python `str.upper` does on ASCII. -/
def pyCharUpper (c : Char) : Char :=
  match c with
  | 'a' => 'A' | 'b' => 'B' | 'c' => 'C' | 'd' => 'D' | 'e' => 'E' | 'f' => 'F'
  | 'g' => 'G' | 'h' => 'H' | 'i' => 'I' | 'j' => 'J' | 'k' => 'K' | 'l' => 'L'
  | 'm' => 'M' | 'n' => 'N' | 'o' => 'O' | 'p' => 'P' | 'q' => 'Q' | 'r' => 'R'
  | 's' => 'S' | 't' => 'T' | 'u' => 'U' | 'v' => 'V' | 'w' => 'W' | 'x' => 'X'
  | 'y' => 'Y' | 'z' => 'Z'
  | c => c

/-- Python `s.lower()`. -/
def pyLowerStr (s : String) : String := ⟨s.data.map pyCharLower⟩

/-- Python `s.upper()`. -/
def pyUpperStr (s : String) : String := ⟨s.data.map pyCharUpper⟩

/-- Python `s.capitalize()`: first character upper-cased, the rest lower-cased. -/
def pyCapitalize (s : String) : String :=
  match s.data with
  | [] => ""
  | c :: rest => ⟨pyCharUpper c :: rest.map pyCharLower⟩

/-- `pre` is a prefix of `l` (used for Python `startswith` and substring search). -/
def listPrefOf : List Char → List Char → Bool
  | [], _ => true
  | _ :: _, [] => false
  | a :: as, b :: bs => a == b && listPrefOf as bs

/-- `needle` occurs as a contiguous sublist of the second argument. -/
def listInfixOf (needle : List Char) : List Char → Bool
  | [] => needle.isEmpty
  | c :: rest => listPrefOf needle (c :: rest) || listInfixOf needle rest

/-- Python `sub in s` (substring containment). -/
def containsSub (s sub : String) : Bool := listInfixOf sub.data s.data

/-- Python `s.startswith(pre)`. -/
def pyStartsWith (s pre : String) : Bool := listPrefOf pre.data s.data

/-- Whitespace-tokenizer accumulator: `cur` holds the current token reversed. -/
def wsTokensAux (cur : List Char) : List Char → List (List Char)
  | [] => if cur.isEmpty then [] else [cur.reverse]
  | c :: rest =>
    if c.isWhitespace then
      if cur.isEmpty then wsTokensAux [] rest
      else cur.reverse :: wsTokensAux [] rest
    else wsTokensAux (c :: cur) rest

/-- Python `s.split()` with no separator: whitespace runs delimit tokens,
no empty tokens are produced. -/
def pySplit (s : String) : List String := (wsTokensAux [] s.data).map String.mk

/-- Line splitter accumulator: `cur` holds the current line reversed. -/
def linesAux (cur : List Char) : List Char → List (List Char)
  | [] => if cur.isEmpty then [] else [cur.reverse]
  | c :: rest => if c == '\n' then cur.reverse :: linesAux [] rest else linesAux (c :: cur) rest

/-- Python `s.splitlines()`: split on newlines, a trailing newline produces no
trailing empty line. -/
def splitLines (s : String) : List String := (linesAux [] s.data).map String.mk

/-- Python `s.split(sep)` with a one-character separator (keeps empty pieces). -/
def splitOnChar (sep : Char) : List Char → List (List Char)
  | [] => [[]]
  | c :: rest =>
    if c == sep then [] :: splitOnChar sep rest
    else
      match splitOnChar sep rest with
      | t :: ts => (c :: t) :: ts
      | [] => [[c]]

/-- Python `s.split(sep)` lifted to `String`. -/
def pySplitOn (s : String) (sep : Char) : List String := (splitOnChar sep s.data).map String.mk

/-- Python `s.split(sep)[0]` (always defined: `split` never returns an empty list). -/
def pyHeadSplit (s : String) (sep : Char) : String := (pySplitOn s sep).headD ""

/-- Remove every occurrence of the given characters (Python `replace(c, '')`). -/
def pyRemoveChars (s : String) (bad : List Char) : String :=
  ⟨s.data.filter (fun c => !(bad.contains c))⟩

/-- Left-to-right non-overlapping replacement; `fuel` bounds the scan and is
instantiated with the text length (each step consumes at least one character
since the pattern is non-empty). -/
def replaceAux (pat rep : List Char) : Nat → List Char → List Char
  | _, [] => []
  | 0, l => l
  | fuel + 1, c :: rest =>
    if listPrefOf pat (c :: rest) then rep ++ replaceAux pat rep fuel ((c :: rest).drop pat.length)
    else c :: replaceAux pat rep fuel rest

/-- Python `s.replace(pat, rep)` for a non-empty pattern. -/
def pyReplace (s pat rep : String) : String :=
  match pat.data with
  | [] => s
  | _ => ⟨replaceAux pat.data rep.data s.data.length s.data⟩

/-- Python `s.strip()`. -/
def pyStrip (s : String) : String :=
  ⟨((s.data.dropWhile Char.isWhitespace).reverse.dropWhile Char.isWhitespace).reverse⟩

/-- Python list indexing `l[i]` for a non-negative index: raises `IndexError`
when out of range. -/
def pyGet {α : Type} (l : List α) (i : Nat) : Except PyErr α :=
  match l.get? i with
  | some a => .ok a
  | none => .error .indexError

/-- Python `l[-1]`: raises `IndexError` on an empty list. -/
def pyLast {α : Type} (l : List α) : Except PyErr α :=
  match l.getLast? with
  | some a => .ok a
  | none => .error .indexError

/-- Python `int(x)` on an optional string: `None` raises `TypeError`,
a non-numeric string raises `ValueError`. -/
def pyInt (o : Option String) : Except PyErr Int :=
  match o with
  | none => .error .typeError
  | some s =>
    let t := (pyStrip s).data
    let (sign, digits) :=
      match t with
      | '-' :: rest => ((-1 : Int), rest)
      | '+' :: rest => ((1 : Int), rest)
      | rest => ((1 : Int), rest)
    if digits.isEmpty || !digits.all Char.isDigit then .error .valueError
    else .ok (sign * (digits.foldl (fun n c => n * 10 + (c.toNat - 48)) 0 : Nat))

/-- Python `str(x)` on an optional string: `None` renders as `"None"`. -/
def pyStr (o : Option String) : String := o.getD "None"

/-! ## `ipaddress.IPv4Address` -/

/-- Parse one dotted-quad octet: digits only, value at most 255, no leading
zeros (as modern Python `ipaddress` requires). -/
def parseOctet (s : String) : Option Nat :=
  let cs := s.data
  if cs.isEmpty then none
  else if !cs.all Char.isDigit then none
  else if cs.length > 1 && cs.headD '0' == '0' then none
  else
    let n := cs.foldl (fun n c => n * 10 + (c.toNat - 48)) 0
    if n ≤ 255 then some n else none

/-- `ipaddress.IPv4Address(s)`: a dotted quad of four valid octets, else raises. -/
def pyIPv4Address (s : String) : Except PyErr (Nat × Nat × Nat × Nat) :=
  match pySplitOn s '.' with
  | [a, b, c, d] =>
    match parseOctet a, parseOctet b, parseOctet c, parseOctet d with
    | some x, some y, some z, some w => .ok (x, y, z, w)
    | _, _, _, _ => .error .addressError
  | _ => .error .addressError

/-- `IPv4Address.is_private`: membership in the `ipaddress` module's private
network list (0.0.0.0/8, 10/8, 127/8, 169.254/16, 172.16/12, 192.0.0.0/29,
192.0.0.170/31, 192.0.2.0/24, 192.168/16, 198.18/15, 198.51.100/24,
203.0.113/24, 240/4, 255.255.255.255/32). -/
def isPrivateIPv4 : Nat × Nat × Nat × Nat → Bool
  | (a, b, c, d) =>
    a == 0 || a == 10 || a == 127 || (a == 169 && b == 254) ||
    (a == 172 && decide (16 ≤ b) && decide (b ≤ 31)) ||
    (a == 192 && b == 0 && c == 0 && decide (d ≤ 7)) ||
    (a == 192 && b == 0 && c == 0 && (d == 170 || d == 171)) ||
    (a == 192 && b == 0 && c == 2) || (a == 192 && b == 168) ||
    (a == 198 && (b == 18 || b == 19)) || (a == 198 && b == 51 && c == 100) ||
    (a == 203 && b == 0 && c == 113) || decide (240 ≤ a)

/-! ## Text normalizers from the source -/

/-- The character is none of the MAC delimiters `.`, `:`, `-`. -/
def notDelim (c : Char) : Bool := !(c == '.' || c == ':' || c == '-')

/-- The character is not whitespace. -/
def notWs (c : Char) : Bool := !c.isWhitespace

/-- The delimiter/whitespace stripping and lower-casing pipeline of
`format_mac_address`: drop `.`, `:`, `-`, lower-case, drop whitespace. -/
def stripMacChars (s : List Char) : List Char :=
  ((s.filter notDelim).map pyCharLower).filter notWs

/-- Re-insert `:` after every two characters (`':'.join(mac[i:i+2] ...)`). -/
def colonJoin : List Char → List Char
  | a :: b :: c :: d :: rest => a :: b :: ':' :: colonJoin (c :: d :: rest)
  | l => l

/-- `format_mac_address`: strip delimiters and whitespace, lower-case, and if
exactly 12 alphanumeric characters remain re-group with `:` every two
characters; otherwise (the `except` branch) return the input unchanged. -/
def format_mac_address (mac_address : String) : String :=
  let mac := stripMacChars mac_address.data
  if mac.length == 12 && mac.all Char.isAlphanum then ⟨colonJoin mac⟩
  else mac_address

/-- The route-collection filter inlined in both route parsers: parse the
address part before `/` (raising on an invalid address, as
`ipaddress.IPv4Address` does), then keep private addresses, the default
route, and connected-kind routes. -/
def isRoutableForCollection (pfx : String) (routeKindIsConnected : Bool) : Except PyErr Bool := do
  let a ← pyIPv4Address (pyHeadSplit pfx '/')
  pure (isPrivateIPv4 a || pfx == "0.0.0.0/0" || routeKindIsConnected)

/-! ## Data model -/

/-- A route's next hop: the `{'address': ..., 'interface': ...}` dict. -/
structure NextHop where
  address : Option String
  interface : Option String
deriving Repr, DecidableEq

/-- A parsed route.  `next_hop` is `none` when the Python dict has no
`next_hop` key at all (the dialect-A branch that matches neither
`directly connected` nor ` via `). -/
structure Route where
  route : String
  kind : String
  next_hop : Option (List NextHop)
deriving Repr, DecidableEq

/-- Placeholder for total list indexing into the NX-OS route store; indices
used are always in range. -/
def emptyRoute : Route := { route := "", kind := "", next_hop := none }

/-- `route_obj['next_hop'] = hs`. -/
def setHops (r : Route) (hs : List NextHop) : Route := { r with next_hop := some hs }

/-- A VRF record with its interfaces and per-kind collected routes. -/
structure Vrf where
  name : String
  interfaces : Option (List String)
  routes : List Route
deriving Repr, DecidableEq

/-- A route neighbor, discriminated by the `routing_protocol` tag. -/
inductive RouteNeighbor where
  | ospf (neighbor_address neighbor_id connection_state connected_interface priority : String)
  | bgp (neighbor_address neighbor_as_num : String)
deriving Repr, DecidableEq

/-- One MAC-address/VLAN pair. -/
structure MacRecord where
  mac_address : String
  vlan_id : String
deriving Repr, DecidableEq

/-- All MAC addresses learned on one interface. -/
structure MacEntry where
  interface : String
  mac_addresses : List MacRecord
deriving Repr, DecidableEq

/-- One hardware inventory item (paired `NAME:`/`PID:` lines). -/
structure InventoryItem where
  name : String
  description : String
  pid : String
  vid : Option String
  sn : Option String
deriving Repr, DecidableEq

/-- One entry of an interface's `ipv4` list; `subnet` is `str(mask)`, so a
missing mask renders as the string `"None"`. -/
structure Ipv4Entry where
  subnet : String
  address : Option String
deriving Repr, DecidableEq

/-- One interface detail record. -/
structure Interface where
  mtu : Int
  ipv4 : List Ipv4Entry
  type_ : Option String
  duplex : Option String
  bandwidth : Int
  mediatype : Option String
  macaddress : Option String
  operstatus : String
  description : Option String
  lineprotocol : String
deriving Repr, DecidableEq

/-- A value stored under one `ansible_net_*` key of the fact bundle. -/
inductive Fact where
  | null
  | str (s : String)
  | routes (rs : List Route)
  | inventory (items : List InventoryItem)
  | macTable (entries : List MacEntry)
  | neighbors (ns : List RouteNeighbor)
  | vrfs (vs : List Vrf)
  | interfaces (m : List (String × Interface))
deriving Repr, DecidableEq

/-- The fact bundle: a Python dict modelled as an insertion-ordered
association list. -/
abbrev Bundle : Type := List (String × Fact)

/-- Python dict assignment `d[k] = v`: update in place when the key exists,
otherwise append at the end (insertion order). -/
def setKey {α : Type} : List (String × α) → String → α → List (String × α)
  | [], k, v => [(k, v)]
  | (k', v') :: rest, k, v =>
    if k' = k then (k, v) :: rest else (k', v') :: setKey rest k v

/-- Python dict lookup `d.get(k)`. -/
def lookupKey {α : Type} : List (String × α) → String → Option α
  | [], _ => none
  | (k', v) :: rest, k => if k' = k then some v else lookupKey rest k

/-! ## Command runner adapter -/

/-- The external device session: each command has an output text and may fail. -/
structure Device where
  output : String → String
  fails : String → Bool

/-- `run_commands(module, cmds, check_rc)`: raises when any command fails and
`check_rc` is set, otherwise returns one output blob per command in order. -/
def run_commands (dev : Device) (cmds : List String) (check_rc : Bool) : Except PyErr (List String) :=
  if check_rc && cmds.any dev.fails then .error .commandError
  else .ok (cmds.map dev.output)

/-- The route kinds iterated by `get_vrfs` and the aggregator. -/
def ROUTE_TYPES : List String := ["BGP", "connected", "OSPF", "static"]

/-! ## Dialect-A (IOS) route parser -/

/-- The non-OSPF branch of `_get_routes_ios`: one line, starting with the
route-type letter, is one route; a `directly connected` line yields an
interface-only next hop, a ` via ` line an address-only next hop, any other
line a route dict without a `next_hop` key. -/
def iosNonOspfLoop (route_type : String) (first_letter : Char) : List String → Except PyErr (List Route)
  | [] => .ok []
  | line :: rest => do
    if pyStartsWith line ⟨[first_letter, ' ']⟩ || pyStartsWith line ⟨[first_letter, '*']⟩ then
      let splitter := pySplit line
      let s1 ← pyGet splitter 1
      let keep ← isRoutableForCollection s1 (pyLowerStr route_type == "connected")
      if keep then
        let kind :=
          if !(["bgp", "eigrp", "isis"].contains (pyLowerStr route_type)) then pyCapitalize route_type
          else pyUpperStr route_type
        let next_hop ←
          if containsSub line "directly connected" then do
            let last ← pyLast splitter
            pure (some [{ address := none, interface := some last }])
          else if containsSub line " via " then do
            let s4 ← pyGet splitter 4
            pure (some [{ address := some (pyRemoveChars s4 [',']), interface := none }])
          else pure (none : Option (List NextHop))
        let rs ← iosNonOspfLoop route_type first_letter rest
        pure ({ route := s1, kind := kind, next_hop := next_hop } :: rs)
      else iosNonOspfLoop route_type first_letter rest
    else iosNonOspfLoop route_type first_letter rest

/-- The `while route in ['E1','E2','IA','N1','N2']` pointer advance of the
OSPF branch: read tokens `r` and `n`, skipping variant-suffix tokens.  `fuel`
is instantiated with `splitter.length + 1`, which the advance can never
exhaust since each step requires token `r` to exist and moves `r` right. -/
def advanceSuffix (splitter : List String) : Nat → Nat → Nat → Except PyErr (String × String)
  | _, _, 0 => .error .indexError
  | r, n, fuel + 1 =>
    match splitter.get? r, splitter.get? n with
    | some route, some nha =>
      if ["E1", "E2", "IA", "N1", "N2"].contains route then
        advanceSuffix splitter (r + 1) (n + 1) fuel
      else .ok (route, nha)
    | _, _ => .error .indexError

/-- The OSPF branch of `_get_routes_ios`: a state machine over lines.
`first_line` is false after an `O` line with fewer than 3 tokens, in which
case the following non-`O` continuation line supplies the next hop (token 2)
and interface (last token) for the remembered `route` prefix. -/
def iosOspfLoop (first_line : Bool) (route : String) : List String → Except PyErr (List Route)
  | [] => .ok []
  | line :: rest => do
    if pyStartsWith line "O " || pyStartsWith line "O*" then
      let splitter := pySplit line
      if splitter.length < 3 then do
        let r1 ← pyGet splitter 1
        iosOspfLoop false r1 rest
      else do
        let rn ← advanceSuffix splitter 1 4 (splitter.length + 1)
        let a ← pyIPv4Address (pyHeadSplit rn.1 '/')
        if isPrivateIPv4 a || rn.1 == "0.0.0.0/0" then do
          let last ← pyLast splitter
          let rs ← iosOspfLoop true rn.1 rest
          pure ({ route := rn.1, kind := "OSPF",
                  next_hop := some [{ address := some (pyRemoveChars rn.2 [',']),
                                      interface := some last }] } :: rs)
        else iosOspfLoop true rn.1 rest
    else if !first_line then do
      let splitter := pySplit line
      let a ← pyIPv4Address (pyHeadSplit route '/')
      if isPrivateIPv4 a || route == "0.0.0.0/0" then do
        let s2 ← pyGet splitter 2
        let last ← pyLast splitter
        let rs ← iosOspfLoop first_line route rest
        pure ({ route := route, kind := "OSPF",
                next_hop := some [{ address := some (pyRemoveChars s2 [',']),
                                    interface := some last }] } :: rs)
      else iosOspfLoop first_line route rest
    else iosOspfLoop first_line route rest

/-- The text-to-routes part of `_get_routes_ios`, applied to the split output
of the `show ip route` command. -/
def parseRoutesIos (route_type : String) (lines : List String) : Except PyErr (List Route) :=
  if pyLowerStr route_type != "ospf" then do
    let first_letter ←
      match route_type.data with
      | [] => Except.error PyErr.indexError
      | c :: _ => Except.ok (pyCharUpper c)
    iosNonOspfLoop route_type first_letter lines
  else iosOspfLoop true "" lines

/-- `_get_routes_ios`: issue the `show ip route [vrf ...] secondary <type>`
command and parse its output. -/
def _get_routes_ios (dev : Device) (route_type : String) (vrf : Option String) : Except PyErr (List Route) := do
  let cmd :=
    match vrf with
    | some v => "show ip route vrf " ++ v ++ " secondary " ++ pyLowerStr route_type
    | none => "show ip route secondary " ++ pyLowerStr route_type
  let stdout ← run_commands dev ["term len 0", cmd] true
  let o ← pyGet stdout 1
  parseRoutesIos route_type (splitLines o)

/-! ## Dialect-B (NX-OS) route parser -/

/-- The mutable locals of `_get_routes_nxos`.  `store` holds every route dict
ever created; `order` is the `routes` list as indices into `store`, so that
Python's aliasing (the same dict appended twice, then mutated) is modelled
exactly; `route_obj` is the index of the current dict, `next_hops` the
accumulated `via` hops. -/
structure NxState where
  store : List Route
  order : List Nat
  route_obj : Option Nat
  next_hops : List NextHop
deriving Repr, DecidableEq

/-- The flush performed at each `ubest` line: if a current route dict exists,
set its `next_hop` to the accumulated hops and append it to the output list;
then reset the hop accumulator. -/
def nxosFlush (st : NxState) : NxState :=
  match st.route_obj with
  | some i =>
    { st with store := st.store.set i (setHops (st.store.getD i emptyRoute) st.next_hops),
              order := st.order ++ [i], next_hops := [] }
  | none => { st with next_hops := [] }

/-- Parse one `via` line into a next hop: token 1 up to `%` is the candidate
address; if it parses as IPv4 the interface is token 2 for connected/OSPF
kinds (an out-of-range token 2 is caught by the same `except`, downgrading
the hop to interface-only); a non-address token becomes the interface. -/
def nxosParseHop (route_type : String) (line : String) : Except PyErr NextHop := do
  let splitter := pySplit (pyRemoveChars line [','])
  let s1 ← pyGet splitter 1
  let next_hop_address := pyHeadSplit s1 '%'
  match pyIPv4Address next_hop_address with
  | .ok _ =>
    if pyLowerStr route_type == "connected" || pyLowerStr route_type == "ospf" then
      match splitter.get? 2 with
      | some i => pure { address := some next_hop_address, interface := some i }
      | none => pure { address := none, interface := some next_hop_address }
    else pure { address := some next_hop_address, interface := none }
  | .error _ => pure { address := none, interface := some next_hop_address }

/-- The per-line state machine of `_get_routes_nxos`. -/
def nxosLoop (route_type : String) (st : NxState) : List String → Except PyErr NxState
  | [] => .ok st
  | line :: rest => do
    if containsSub line "ubest" then do
      let st1 := nxosFlush st
      let h ← pyGet (pySplit line) 0
      let route := pyRemoveChars h [',']
      let keep ← isRoutableForCollection route (pyLowerStr route_type == "connected")
      let st2 :=
        if keep then
          let kind :=
            if !(["bgp", "eigrp", "isis", "ospf"].contains (pyLowerStr route_type)) then
              pyCapitalize route_type
            else pyUpperStr route_type
          { st1 with store := st1.store ++ [{ route := route, kind := kind, next_hop := none }],
                     route_obj := some st1.store.length }
        else st1
      nxosLoop route_type st2 rest
    else if containsSub line "via" then
      match st.route_obj with
      | some _ => do
        let h ← nxosParseHop route_type line
        nxosLoop route_type { st with next_hops := st.next_hops ++ [h] } rest
      | none => nxosLoop route_type st rest
    else nxosLoop route_type st rest

/-- The trailing `if next_hops:` flush after the loop; `route_obj` being
`None` there would be Python's `TypeError` on `None['next_hop']`. -/
def nxosFlushFinal (st : NxState) : Except PyErr NxState :=
  if st.next_hops.isEmpty then .ok st
  else
    match st.route_obj with
    | some i =>
      .ok { st with store := st.store.set i (setHops (st.store.getD i emptyRoute) st.next_hops),
                    order := st.order ++ [i] }
    | none => .error .typeError

/-- The text-to-routes part of `_get_routes_nxos`. -/
def parseRoutesNxos (route_type : String) (lines : List String) : Except PyErr (List Route) := do
  let st ← nxosLoop route_type ⟨[], [], none, []⟩ lines
  let st ← nxosFlushFinal st
  pure (st.order.map (fun i => st.store.getD i emptyRoute))

/-- `_get_routes_nxos`: translate `connected` to the vendor keyword `direct`,
issue the command, and parse. -/
def _get_routes_nxos (dev : Device) (route_type : String) (vrf : Option String) : Except PyErr (List Route) := do
  let rt := if route_type == "connected" then "direct" else route_type
  let cmd :=
    match vrf with
    | some v => "show ip route vrf " ++ v ++ " " ++ pyLowerStr rt ++ " | begin ubest"
    | none => "show ip route " ++ pyLowerStr rt ++ " | begin ubest"
  let stdout ← run_commands dev ["term len 0", cmd] true
  let o ← pyGet stdout 1
  parseRoutesNxos route_type (splitLines o)

/-- `get_routes`: dispatch on the operating system (unknown systems log an
error and return the empty list). -/
def get_routes (dev : Device) (operating_system route_type : String) (vrf : Option String) : Except PyErr (List Route) :=
  if pyUpperStr operating_system == "IOS" then _get_routes_ios dev route_type vrf
  else if pyUpperStr operating_system == "NXOS" then _get_routes_nxos dev route_type vrf
  else pure []

/-! ## VRF extractor -/

/-- Per-line body of `get_vrfs`: name is token 0, a trailing field not
starting with `ipv` is a comma-separated interface list unless it is `--`;
each route kind is fetched with the VRF as scope, a failing kind is logged
and skipped. -/
def vrfLoop (dev : Device) (operating_system : String) : List String → Except PyErr (List Vrf)
  | [] => .ok []
  | line :: rest => do
    let splitter := pySplit line
    let vrf_name ← pyGet splitter 0
    let last ← pyLast splitter
    let vrf_interfaces : Option (List String) :=
      if !pyStartsWith last "ipv" then
        let ifs := pySplitOn last ','
        if ifs.headD "" == "--" then none else some ifs
      else none
    let routes := ROUTE_TYPES.foldl
      (fun acc t =>
        match get_routes dev operating_system t (some vrf_name) with
        | .ok r => acc ++ r
        | .error _ => acc) []
    let vs ← vrfLoop dev operating_system rest
    pure ({ name := vrf_name, interfaces := vrf_interfaces, routes := routes } :: vs)

/-- `get_vrfs`: parse `show vrf` output (header line skipped; no VRFs when
the output has at most one line). -/
def get_vrfs (dev : Device) (operating_system : String) : Except PyErr (List Vrf) := do
  let stdout ← run_commands dev ["term len 0", "show vrf"] true
  let o ← pyGet stdout 1
  let lines := splitLines o
  if lines.length > 1 then vrfLoop dev operating_system (lines.drop 1) else pure []

/-! ## Route-neighbor extractor -/

/-- OSPF neighbor scan: strip literal `" -"`, then tuple-unpack exactly six
columns (any other count is Python's `ValueError`). -/
def ospfNeighborLoop : List String → Except PyErr (List RouteNeighbor)
  | [] => .ok []
  | line :: rest => do
    let line := pyReplace line " -" ""
    match pySplit line with
    | [neighbor_id, priority, connection_state, _dead_time, neighbor_address, connected_interface] => do
      let ns ← ospfNeighborLoop rest
      pure (.ospf neighbor_address neighbor_id connection_state connected_interface priority :: ns)
    | _ => .error .valueError

/-- BGP summary scan: rows whose first token parses as IPv4 (others are
skipped by the `except: continue`); token 2 is the peer AS number and is
read outside the `try`, so its absence raises. -/
def bgpNeighborLoop : List String → Except PyErr (List RouteNeighbor)
  | [] => .ok []
  | line :: rest =>
    let splitter := pySplit line
    match splitter.get? 0 with
    | none => bgpNeighborLoop rest
    | some s0 =>
      match pyIPv4Address s0 with
      | .error _ => bgpNeighborLoop rest
      | .ok _ => do
        let s2 ← pyGet splitter 2
        let ns ← bgpNeighborLoop rest
        pure (.bgp s0 s2 :: ns)

/-- `get_route_neighbors`: OSPF neighbor table then BGP summary table,
concatenated (each with its first output line dropped). -/
def get_route_neighbors (dev : Device) : Except PyErr (List RouteNeighbor) := do
  let stdout ← run_commands dev ["term len 0", "show ip ospf neighbor | begin Neighbor"] true
  let o ← pyGet stdout 1
  let ospfNs ← ospfNeighborLoop ((splitLines o).drop 1)
  let stdout2 ← run_commands dev ["term len 0", "show ip bgp summary | begin Neighbor"] true
  let o2 ← pyGet stdout2 1
  let bgpNs ← bgpNeighborLoop ((splitLines o2).drop 1)
  pure (ospfNs ++ bgpNs)

/-! ## MAC-address-table extractor -/

/-- Scan `* `-marked dynamic entries into a dict keyed by interface. -/
def macLoop (acc : List (String × List MacRecord)) : List String → Except PyErr (List (String × List MacRecord))
  | [] => .ok acc
  | line :: rest => do
    if pyStartsWith line "* " then
      let splitter := pySplit line
      let vlan ← pyGet splitter 1
      let rawMac ← pyGet splitter 2
      let mac := format_mac_address rawMac
      let interface ← pyGet splitter 7
      let prev := (lookupKey acc interface).getD []
      macLoop (setKey acc interface (prev ++ [{ mac_address := mac, vlan_id := vlan }])) rest
    else macLoop acc rest

/-- `get_mac_address_table`: the only command run with `check_rc=False`;
returns `None` (not the empty list) when no entry was found. -/
def get_mac_address_table (dev : Device) : Except PyErr (Option (List MacEntry)) := do
  let stdout ← run_commands dev ["term len 0", "show mac address-table dynamic"] false
  let o ← pyGet stdout 1
  let table ← macLoop [] (splitLines o)
  let l := table.map (fun kv => { interface := kv.1, mac_addresses := kv.2 : MacEntry })
  pure (if l.length > 0 then some l else none)

/-! ## Inventory extractor -/

/-- Scan alternating `NAME:`/`PID:` lines; `cur` holds the pending
name/description pair (reading it before any `NAME:` line is Python's
`NameError`); a `PID:` line with more than 4 comma-stripped tokens also reads
tokens 3 and 5. -/
def invLoop (cur : Option (String × String)) : List String → Except PyErr (List InventoryItem)
  | [] => .ok []
  | line :: rest => do
    if pyStartsWith line "NAME:" then
      let splitter := pySplitOn line '"'
      let n ← pyGet splitter 1
      let d ← pyGet splitter 3
      invLoop (some (n, d)) rest
    else if pyStartsWith line "PID:" then do
      let splitter := pySplit (pyRemoveChars line [','])
      let pid ← pyGet splitter 1
      let vidsn ←
        if splitter.length > 4 then do
          let v ← pyGet splitter 3
          let s ← pyGet splitter 5
          pure (some v, some s)
        else pure ((none : Option String), (none : Option String))
      match cur with
      | some nd => do
        let items ← invLoop cur rest
        pure ({ name := nd.1, description := nd.2, pid := pid, vid := vidsn.1, sn := vidsn.2 } :: items)
      | none => .error .nameError
    else invLoop cur rest

/-- `get_inventory`: parse `show inventory` output. -/
def get_inventory (dev : Device) : Except PyErr (List InventoryItem) := do
  let stdout ← run_commands dev ["term len 0", "show inventory"] true
  let o ← pyGet stdout 1
  invLoop none (splitLines o)

/-! ## Interface extractor (dialect B only) -/

/-- The nine optional detail fields accumulated over one interface's detail
output. -/
structure IfaceFields where
  mtu : Option String := none
  subnet : Option String := none
  address : Option String := none
  type_ : Option String := none
  duplex : Option String := none
  bandwidth : Option String := none
  mediatype : Option String := none
  mac : Option String := none
  descr : Option String := none
deriving Repr, DecidableEq

/-- One labeled detail line of `show interf <name>` output: the
`Hardware:`/`Hardware is`/`Description:`/`Internet Address`/`MTU`/`duplex`
branches of `_get_interfaces_nxos`; the MAC extraction is inside a
`try/except: pass`, everything else can raise. -/
def nxosIfaceDetail (fs : IfaceFields) (line2 : String) : Except PyErr IfaceFields := do
  if containsSub line2 "Hardware:" then do
    let splitter2 := pySplitOn line2 ','
    let s0 := splitter2.headD ""
    let t1 ← pyGet (pySplitOn s0 ':') 1
    let mac :=
      match (do
        let s1 ← pyGet splitter2 1
        let w ← pyLast (pySplit s1)
        Except.ok (format_mac_address (pyReplace w ")" "")) : Except PyErr String) with
      | .ok m => some m
      | .error _ => fs.mac
    pure { fs with type_ := some (pyStrip t1), mac := mac }
  else if containsSub line2 "Hardware is" then do
    let splitter2 := pySplitOn line2 ','
    let s0 := splitter2.headD ""
    let t := ((pySplit s0).drop 2).foldl (fun a b => a ++ b) ""
    let mac :=
      match (do
        let s1 ← pyGet splitter2 1
        let w ← pyLast (pySplit s1)
        Except.ok (format_mac_address w) : Except PyErr String) with
      | .ok m => some m
      | .error _ => fs.mac
    pure { fs with type_ := some t, mac := mac }
  else if containsSub line2 "Description:" then do
    let d ← pyGet (pySplitOn line2 ':') 1
    pure { fs with descr := some (pyStrip d) }
  else if containsSub line2 "Internet Address" then do
    let w ← pyLast (pySplit line2)
    match pySplitOn w '/' with
    | [addr, mask] => pure { fs with address := some addr, subnet := some mask }
    | _ => .error .valueError
  else if containsSub line2 "MTU" then do
    let splitter2 := pySplitOn line2 ','
    let m ← pyGet (pySplit (splitter2.headD "")) 1
    let s1 ← pyGet splitter2 1
    let b ← pyGet (pySplit s1) 1
    pure { fs with mtu := some m, bandwidth := some b }
  else if containsSub line2 "duplex" then do
    let splitter2 := pySplitOn line2 ','
    let d := if !containsSub (splitter2.headD "") "full" then "half" else "full"
    let md ← pyLast splitter2
    pure { fs with duplex := some d, mediatype := some (pyStrip (pyReplace md "media type is" "")) }
  else pure fs

/-- Per-line body of `_get_interfaces_nxos`: brief-table rows with exactly 3
tokens name an interface whose detail output is then fetched and folded. -/
def nxosIfaceLoop (dev : Device) (acc : List (String × Interface)) : List String → Except PyErr (List (String × Interface))
  | [] => .ok acc
  | line :: rest => do
    let splitter := pySplit line
    if splitter.length == 3 then do
      let iface_name0 ← pyGet splitter 0
      let last ← pyLast splitter
      let iface_status := pySplitOn last '/'
      let st0 ← pyGet iface_status 0
      let st1 ← pyGet iface_status 1
      let iface_lineprotocol ← pyLast (pySplitOn st0 '-')
      let iface_operstatus ← pyLast (pySplitOn st1 '-')
      let stdout2 ← run_commands dev ["term len 0", "show interf " ++ iface_name0] true
      let o2 ← pyGet stdout2 1
      let lines2 := splitLines o2
      let l20 ← pyGet lines2 0
      let iface_name ← pyGet (pySplit l20) 0
      let fs ← (lines2.drop 1).foldlM nxosIfaceDetail ({} : IfaceFields)
      let mtu ← pyInt fs.mtu
      let bw ← pyInt fs.bandwidth
      let iface : Interface :=
        { mtu := mtu, ipv4 := [{ subnet := pyStr fs.subnet, address := fs.address }],
          type_ := fs.type_, duplex := fs.duplex, bandwidth := bw, mediatype := fs.mediatype,
          macaddress := fs.mac, operstatus := iface_operstatus, description := fs.descr,
          lineprotocol := iface_lineprotocol }
      nxosIfaceLoop dev (setKey acc iface_name iface) rest
    else nxosIfaceLoop dev acc rest

/-- `_get_interfaces_nxos`: brief listing then one detail command per
interface. -/
def _get_interfaces_nxos (dev : Device) : Except PyErr (List (String × Interface)) := do
  let stdout ← run_commands dev ["term len 0", "show ip interf br oper vrf all"] true
  let o ← pyGet stdout 1
  nxosIfaceLoop dev [] (splitLines o)

/-- `get_interfaces`: only dialect B has an implementation; other systems
return `None`. -/
def get_interfaces (dev : Device) (operating_system : String) : Except PyErr (Option (List (String × Interface))) :=
  if pyUpperStr operating_system == "NXOS" then do
    let m ← _get_interfaces_nxos dev
    pure (some m)
  else pure none

/-! ## License extractor -/

/-- `_get_license_ios`: the raw `show license all` output, verbatim. -/
def _get_license_ios (dev : Device) : Except PyErr String := do
  let stdout ← run_commands dev ["term len 0", "show license all"] true
  pyGet stdout 1

/-- `_get_license_nxos`: the raw `show license` output, verbatim. -/
def _get_license_nxos (dev : Device) : Except PyErr String := do
  let stdout ← run_commands dev ["term len 0", "show license"] true
  pyGet stdout 1

/-- `get_license`: dispatch on the operating system; unknown systems log an
error and return `None`. -/
def get_license (dev : Device) (operating_system : String) : Except PyErr (Option String) :=
  if pyUpperStr operating_system == "IOS" then do
    let s ← _get_license_ios dev
    pure (some s)
  else if pyUpperStr operating_system == "NXOS" then do
    let s ← _get_license_nxos dev
    pure (some s)
  else pure none

/-! ## Aggregator / dispatcher (`run_module`) -/

/-- The supported fact-type selectors. -/
def validFactTypes : List String :=
  ["all", "interfaces", "inventory", "license", "mac_address_table", "routes",
   "route_neighbors", "vrfs"]

/-- Parameter validation of `run_module`: a missing or unrecognized
`fact_type` becomes `all` (with a logged warning). -/
def normalizeFactType (p : Option String) : String :=
  match p with
  | none => "all"
  | some ft => if ft ∈ validFactTypes then ft else "all"

/-- The version-banner bootstrap: `show version`, first output line; `IOS`
selects dialect A, `NX-OS`/`Nexus` dialect B, default dialect A. -/
def detectOperatingSystem (dev : Device) : Except PyErr String := do
  let output ← run_commands dev ["term len 0", "show version"] true
  let o ← pyGet output 1
  let l0 ← pyGet (splitLines o) 0
  pure (if containsSub l0 "IOS" then "IOS"
        else if containsSub l0 "NX-OS" || containsSub l0 "Nexus" then "NXOS"
        else "IOS")

/-- The `ansible_facts` dict as initialized by `run_module` (note: no
`ansible_net_interfaces` key). -/
def initFacts : Bundle :=
  [("ansible_net_inventory", Fact.null), ("ansible_net_license", Fact.null),
   ("ansible_net_mac_address_table", Fact.null), ("ansible_net_routes", Fact.null),
   ("ansible_net_route_neighbors", Fact.null), ("ansible_net_vrfs", Fact.null)]

/-- The value stored for the interfaces fact. -/
def ifaceFact (o : Option (List (String × Interface))) : Fact :=
  match o with
  | some m => .interfaces m
  | none => .null

/-- The value stored for the license fact. -/
def licFact (o : Option String) : Fact :=
  match o with
  | some s => .str s
  | none => .null

/-- The value stored for the MAC-table fact. -/
def macFact (o : Option (List MacEntry)) : Fact :=
  match o with
  | some l => .macTable l
  | none => .null

/-- The `if fact_type == 'interfaces' or (fact_type == 'all' and
operating_system == 'NXOS')` block of `run_module` (not exception-wrapped). -/
def stepInterfaces (dev : Device) (fact_type operating_system : String) (b : Bundle) : Except PyErr Bundle :=
  if fact_type = "interfaces" ∨ (fact_type = "all" ∧ operating_system = "NXOS") then do
    let ifs ← get_interfaces dev operating_system
    pure (setKey b "ansible_net_interfaces" (ifaceFact ifs))
  else pure b

/-- The `inventory` block of `run_module` (not exception-wrapped). -/
def stepInventory (dev : Device) (fact_type : String) (b : Bundle) : Except PyErr Bundle :=
  if fact_type = "inventory" ∨ fact_type = "all" then do
    let inv ← get_inventory dev
    pure (setKey b "ansible_net_inventory" (.inventory inv))
  else pure b

/-- The `license` block of `run_module` (not exception-wrapped). -/
def stepLicense (dev : Device) (fact_type operating_system : String) (b : Bundle) : Except PyErr Bundle :=
  if fact_type = "license" ∨ fact_type = "all" then do
    let lic ← get_license dev operating_system
    pure (setKey b "ansible_net_license" (licFact lic))
  else pure b

/-- The `mac_address_table` block of `run_module`: the extractor call is
wrapped in `try/except`, a failure leaves the value `None`. -/
def stepMac (dev : Device) (fact_type : String) (b : Bundle) : Bundle :=
  if fact_type = "mac_address_table" ∨ fact_type = "all" then
    let mt := match get_mac_address_table dev with
      | .ok v => v
      | .error _ => none
    setKey b "ansible_net_mac_address_table" (macFact mt)
  else b

/-- The `routes` block of `run_module`: each route kind is fetched in its own
`try/except`; an empty total collapses to `None`. -/
def stepRoutes (dev : Device) (fact_type operating_system : String) (b : Bundle) : Bundle :=
  if fact_type = "routes" ∨ fact_type = "all" then
    let routes := ROUTE_TYPES.foldl
      (fun acc t =>
        match get_routes dev operating_system t none with
        | .ok r => acc ++ r
        | .error _ => acc) []
    setKey b "ansible_net_routes" (if routes.length = 0 then .null else .routes routes)
  else b

/-- The `route_neighbors` block of `run_module`: the extractor call is
wrapped in `try/except`, a failure leaves the value `None`. -/
def stepNeighbors (dev : Device) (fact_type : String) (b : Bundle) : Bundle :=
  if fact_type = "route_neighbors" ∨ fact_type = "all" then
    let rn := match get_route_neighbors dev with
      | .ok v => some v
      | .error _ => none
    setKey b "ansible_net_route_neighbors"
      (match rn with
       | some v => .neighbors v
       | none => .null)
  else b

/-- The `vrfs` block of `run_module` (not exception-wrapped). -/
def stepVrfs (dev : Device) (fact_type operating_system : String) (b : Bundle) : Except PyErr Bundle :=
  if fact_type = "vrfs" ∨ fact_type = "all" then do
    let vs ← get_vrfs dev operating_system
    pure (setKey b "ansible_net_vrfs" (.vrfs vs))
  else pure b

/-- `run_module` (the non-check-mode path): normalize the selector, detect
the dialect from the version banner (failure here is fatal), then populate
the bundle by the source's per-fact-type blocks in order.  Only the
MAC-table, per-kind route, and route-neighbor extractor calls are wrapped in
`try/except`; interfaces, inventory, license and VRF failures propagate. -/
def runModule (dev : Device) (factTypeParam : Option String) : Except PyErr Bundle := do
  let fact_type := normalizeFactType factTypeParam
  let operating_system ← detectOperatingSystem dev
  let facts1 ← stepInterfaces dev fact_type operating_system initFacts
  let facts2 ← stepInventory dev fact_type facts1
  let facts3 ← stepLicense dev fact_type operating_system facts2
  let facts4 := stepMac dev fact_type facts3
  let facts5 := stepRoutes dev fact_type operating_system facts4
  let facts6 := stepNeighbors dev fact_type facts5
  stepVrfs dev fact_type operating_system facts6

/-! ## Concrete devices used to evaluate the development -/

/-- A dialect-A device on which every command succeeds and, apart from the
version banner, returns empty output. -/
def devC1 : Device :=
  { output := fun c => if c == "show version" then "Cisco IOS Software, test" else "",
    fails := fun _ => false }

/-- The bundle `runModule` produces on `devC1` with selector `all`. -/
def c1bundle : Bundle :=
  [("ansible_net_inventory", Fact.inventory []), ("ansible_net_license", Fact.str ""),
   ("ansible_net_mac_address_table", Fact.null), ("ansible_net_routes", Fact.null),
   ("ansible_net_route_neighbors", Fact.neighbors []), ("ansible_net_vrfs", Fact.vrfs [])]

/-- A device on which only the `show inventory` command fails. -/
def devC3 : Device :=
  { output := fun c => if c == "show version" then "Cisco IOS Software, test" else "",
    fails := fun c => c == "show inventory" }

/-- A device on which every route command and the OSPF neighbor command fail,
and the MAC-table output is malformed; all other commands succeed. -/
def devIso : Device :=
  { output := fun c =>
      if c == "show version" then "Cisco IOS Software, test"
      else if c == "show mac address-table dynamic" then "* 100 aabb.ccdd.eeff"
      else "",
    fails := fun c =>
      c == "show ip route secondary bgp" || c == "show ip route secondary connected" ||
      c == "show ip route secondary ospf" || c == "show ip route secondary static" ||
      c == "show ip ospf neighbor | begin Neighbor" }

/-- A device whose inventory output has a `PID:` line with exactly 5 tokens
after comma removal. -/
def devPid5 : Device :=
  { output := fun c =>
      if c == "show inventory" then
        "NAME: \"Chassis\", DESCR: \"ASR Chassis\"\nPID: ASR1000, VID: V01, SN:"
      else "",
    fails := fun _ => false }

/-- A device whose inventory output has a `PID:` line with only 2 tokens. -/
def devPid4 : Device :=
  { output := fun c =>
      if c == "show inventory" then "NAME: \"Chassis\", DESCR: \"D\"\nPID: ASR1000"
      else "",
    fails := fun _ => false }

/-- A device whose OSPF neighbor table has a row with 2 columns instead of 6. -/
def devNbr : Device :=
  { output := fun c =>
      if c == "show ip ospf neighbor | begin Neighbor" then
        "Neighbor ID     Pri   State\n172.31.1.2 0"
      else "",
    fails := fun _ => false }

/-- A device whose static-route output contains one route line with neither
`directly connected` nor ` via `. -/
def devStatic : Device :=
  { output := fun c =>
      if c == "show ip route secondary static" then "S    10.0.0.0/8 is directly connected, Vlan10"
      else "",
    fails := fun _ => false }

/-- A device with output irrelevant to the result being compared. -/
def devAny : Device := { output := fun _ => "", fails := fun _ => false }

/-- A device whose static-route output contains one route line with neither
`directly connected` nor ` via `. -/
def devBare : Device :=
  { output := fun c => if c == "show ip route secondary static" then "S    10.0.0.0/8" else "",
    fails := fun _ => false }

/-- Specification predicate: the next hop has a non-null address or a
non-null interface. -/
def hopNonNull (h : NextHop) : Bool := h.address.isSome || h.interface.isSome

/-- Specification predicate: every hop in the route's next-hop list (empty
when the `next_hop` key is absent) is non-null. -/
def routeHopsNonNull (r : Route) : Prop := ∀ h ∈ r.next_hop.getD [], hopNonNull h = true

/-- Specification predicate: the six always-initialized `ansible_net_*` keys
are present in the bundle. -/
def sixKeysPresent (b : Bundle) : Prop :=
  (lookupKey b "ansible_net_inventory").isSome = true ∧
  (lookupKey b "ansible_net_license").isSome = true ∧
  (lookupKey b "ansible_net_mac_address_table").isSome = true ∧
  (lookupKey b "ansible_net_routes").isSome = true ∧
  (lookupKey b "ansible_net_route_neighbors").isSome = true ∧
  (lookupKey b "ansible_net_vrfs").isSome = true

/-- Parse a list of `via` lines into next hops, failing on the first bad
line (specification-side helper for stating the dialect-B block property). -/
def mapHops (route_type : String) : List String → Except PyErr (List NextHop)
  | [] => .ok []
  | l :: ls => do
    let h ← nxosParseHop route_type l
    let hs ← mapHops route_type ls
    pure (h :: hs)

/-- The lower-case ASCII letters (range of the non-identity part of
`pyCharLower`). -/
def lowerChars : List Char :=
  ['a','b','c','d','e','f','g','h','i','j','k','l','m',
   'n','o','p','q','r','s','t','u','v','w','x','y','z']

/-! ## Theorems -/

/-- `pyCharLower` either fixes its argument or yields a lower-case letter. -/
theorem pyCharLower_cases (c : Char) : pyCharLower c = c ∨ pyCharLower c ∈ lowerChars := by
  unfold pyCharLower
  split
  all_goals first | (left; rfl) | (right; decide)

/-- Lower-case letters are fixed by `pyCharLower`. -/
theorem pyCharLower_of_lower {c : Char} (h : c ∈ lowerChars) : pyCharLower c = c := by
  fin_cases h <;> rfl

/-- `pyCharLower` is idempotent. -/
theorem pyCharLower_idem (c : Char) : pyCharLower (pyCharLower c) = pyCharLower c := by
  rcases pyCharLower_cases c with h | h
  · rw [h]; exact h
  · exact pyCharLower_of_lower h

/-- Lower-casing a non-delimiter character cannot produce a delimiter. -/
theorem pyCharLower_notDelim {c : Char} (hd : notDelim c = true) : notDelim (pyCharLower c) = true := by
  rcases pyCharLower_cases c with h | h
  · rw [h]; exact hd
  · generalize hx : pyCharLower c = x at h ⊢
    fin_cases h <;> rfl

/-- Filtering with a predicate that rejects `:` sees through `colonJoin`. -/
theorem filter_colonJoin (p : Char → Bool) (hp : p ':' = false) (m : List Char) :
    (colonJoin m).filter p = m.filter p := by
  induction m using colonJoin.induct with
  | case1 a b c d rest ih =>
    simp only [colonJoin, List.filter, hp]
    cases hpa : p a <;> cases hpb : p b <;> simp_all [List.filter]
  | case2 l h =>
    rcases l with _ | ⟨a, _ | ⟨b, _ | ⟨c, _ | ⟨d, rest⟩⟩⟩⟩
    · rfl
    · rfl
    · rfl
    · rfl
    · exact (h a b c d rest rfl).elim

/-- Characters surviving the strip pipeline are lower-case-fixed,
non-delimiter and non-whitespace. -/
theorem mem_stripMacChars {c : Char} {s : List Char} (h : c ∈ stripMacChars s) :
    pyCharLower c = c ∧ notDelim c = true ∧ notWs c = true := by
  unfold stripMacChars at h
  obtain ⟨hm, hw⟩ := List.mem_filter.mp h
  obtain ⟨c', hc', rfl⟩ := List.mem_map.mp hm
  have hd := (List.mem_filter.mp hc').2
  exact ⟨pyCharLower_idem c', pyCharLower_notDelim hd, hw⟩

/-- A map whose function fixes every element of the list is the identity. -/
theorem map_eq_self_of {α : Type} {f : α → α} {l : List α} (h : ∀ a ∈ l, f a = a) :
    l.map f = l := by
  induction l with
  | nil => rfl
  | cons a t ih =>
    simp only [List.map_cons, h a (List.mem_cons_self a t),
      ih (fun x hx => h x (List.mem_cons_of_mem a hx))]

/-- Stripping the canonicalized form recovers the stripped characters. -/
theorem strip_colonJoin (s : List Char) :
    stripMacChars (colonJoin (stripMacChars s)) = stripMacChars s := by
  have h1 : List.filter notDelim (colonJoin (stripMacChars s)) =
      List.filter notDelim (stripMacChars s) := filter_colonJoin notDelim rfl _
  have h2 : List.filter notDelim (stripMacChars s) = stripMacChars s :=
    List.filter_eq_self.mpr (fun c hc => (mem_stripMacChars hc).2.1)
  have h3 : (stripMacChars s).map pyCharLower = stripMacChars s :=
    map_eq_self_of (fun c hc => (mem_stripMacChars hc).1)
  have h4 : List.filter notWs (stripMacChars s) = stripMacChars s :=
    List.filter_eq_self.mpr (fun c hc => (mem_stripMacChars hc).2.2)
  calc stripMacChars (colonJoin (stripMacChars s))
      = List.filter notWs ((List.filter notDelim (colonJoin (stripMacChars s))).map pyCharLower) := rfl
    _ = stripMacChars s := by rw [h1, h2, h3, h4]

/-- C7: `format_mac_address` is idempotent on every input, and the three
delimiter styles of the same 12 hex digits all map to the identical
canonical colon-separated lower-case string. -/
theorem C7_format_mac_idempotent :
    (∀ s, format_mac_address (format_mac_address s) = format_mac_address s) ∧
    format_mac_address "a2bf.0000.0002" = "a2:bf:00:00:00:02" ∧
    format_mac_address "a2:bf:00:00:00:02" = "a2:bf:00:00:00:02" ∧
    format_mac_address "a2-bf-00-00-00-02" = "a2:bf:00:00:00:02" := by
  refine ⟨?_, rfl, rfl, rfl⟩
  intro s
  by_cases hg : ((stripMacChars s.data).length == 12 && (stripMacChars s.data).all Char.isAlphanum) = true
  · have hfs : format_mac_address s = ⟨colonJoin (stripMacChars s.data)⟩ := by
      simp [format_mac_address, hg]
    have hkey : stripMacChars (String.mk (colonJoin (stripMacChars s.data))).data
        = stripMacChars s.data := strip_colonJoin s.data
    rw [hfs]
    simp [format_mac_address, hkey, hg]
  · have hg' : ((stripMacChars s.data).length == 12 && (stripMacChars s.data).all Char.isAlphanum) = false := by
      revert hg
      cases ((stripMacChars s.data).length == 12 && (stripMacChars s.data).all Char.isAlphanum) <;> simp
    have hfs : format_mac_address s = s := by simp [format_mac_address, hg']
    rw [hfs, hfs]

/-- C1 counterexample: on a dialect-A device with selector `all`,
`run_module` succeeds but the resulting bundle has no
`ansible_net_interfaces` key at all, contradicting the claim that every §6
key is always present. -/
theorem C1_counterexample :
    runModule devC1 (some "all") = .ok c1bundle ∧
    lookupKey c1bundle "ansible_net_interfaces" = none := ⟨rfl, rfl⟩

/-- C9: the route-collection filter returns true for every prefix whose
address part is private, true for the default route regardless of privacy,
true for every parseable prefix when the route kind is connected, and false
for every public non-default prefix of a non-connected kind. -/
theorem C9_isRoutableForCollection :
    (∀ pfx conn a, pyIPv4Address (pyHeadSplit pfx '/') = .ok a → isPrivateIPv4 a = true →
      isRoutableForCollection pfx conn = .ok true) ∧
    (∀ conn, isRoutableForCollection "0.0.0.0/0" conn = .ok true) ∧
    (∀ pfx a, pyIPv4Address (pyHeadSplit pfx '/') = .ok a →
      isRoutableForCollection pfx true = .ok true) ∧
    (∀ pfx a, pyIPv4Address (pyHeadSplit pfx '/') = .ok a → isPrivateIPv4 a = false →
      pfx ≠ "0.0.0.0/0" → isRoutableForCollection pfx false = .ok false) := by
  refine ⟨?_, ?_, ?_, ?_⟩
  · intro pfx conn a hp hpriv
    simp [isRoutableForCollection, hp, hpriv]
  · intro conn
    rfl
  · intro pfx a hp
    simp [isRoutableForCollection, hp]
  · intro pfx a hp hpriv hne
    simp [isRoutableForCollection, hp, hpriv, hne]

/-- Witness for C9 at the spec's example prefixes. -/
theorem C9_witness :
    isRoutableForCollection "192.168.1.0/24" false = .ok true ∧
    isRoutableForCollection "8.8.8.0/24" false = .ok false ∧
    isRoutableForCollection "0.0.0.0/0" false = .ok true ∧
    isRoutableForCollection "8.8.8.0/24" true = .ok true :=
  ⟨C9_isRoutableForCollection.1 "192.168.1.0/24" false (192, 168, 1, 0) rfl rfl,
   C9_isRoutableForCollection.2.2.2 "8.8.8.0/24" (8, 8, 8, 0) rfl rfl (by decide),
   C9_isRoutableForCollection.2.1 false,
   C9_isRoutableForCollection.2.2.1 "8.8.8.0/24" (8, 8, 8, 0) rfl⟩

/-- An `Except` bind that succeeds factors through a successful first step. -/
theorem bind_ok_ex {α β : Type} {x : Except PyErr α} {f : α → Except PyErr β} {b : β}
    (h : x.bind f = .ok b) : ∃ a, x = .ok a ∧ f a = .ok b := by
  cases x with
  | error e => simp [Except.bind] at h
  | ok a => exact ⟨a, rfl, h⟩

/-- Dict assignment makes the assigned key present with the assigned value. -/
theorem lookupKey_setKey_self {α : Type} (l : List (String × α)) (k : String) (v : α) :
    lookupKey (setKey l k v) k = some v := by
  induction l with
  | nil => simp [setKey, lookupKey]
  | cons p rest ih =>
    obtain ⟨k0, v0⟩ := p
    by_cases he : k0 = k
    · subst he; simp [setKey, lookupKey]
    · simp [setKey, lookupKey, he, ih]

/-- Dict assignment leaves other keys unchanged. -/
theorem lookupKey_setKey_ne {α : Type} (l : List (String × α)) (k k' : String) (v : α)
    (h : k' ≠ k) : lookupKey (setKey l k' v) k = lookupKey l k := by
  induction l with
  | nil => simp [setKey, lookupKey, h]
  | cons p rest ih =>
    obtain ⟨k0, v0⟩ := p
    by_cases he : k0 = k'
    · subst he
      simp [setKey, lookupKey, h]
    · by_cases h0 : k0 = k <;> simp [setKey, lookupKey, he, h0, Ne.symm h, ih]

/-- A present key stays present under any dict assignment. -/
theorem presence_mono {α : Type} {l : List (String × α)} {k : String}
    (h : (lookupKey l k).isSome = true) (k' : String) (v : α) :
    (lookupKey (setKey l k' v) k).isSome = true := by
  by_cases he : k' = k
  · subst he; rw [lookupKey_setKey_self]; rfl
  · rw [lookupKey_setKey_ne _ _ _ _ he]; exact h

/-- The six initialized keys stay present under any dict assignment. -/
theorem sixKeysPresent_setKey {b : Bundle} (h : sixKeysPresent b) (k : String) (v : Fact) :
    sixKeysPresent (setKey b k v) := by
  obtain ⟨h1, h2, h3, h4, h5, h6⟩ := h
  exact ⟨presence_mono h1 k v, presence_mono h2 k v, presence_mono h3 k v,
         presence_mono h4 k v, presence_mono h5 k v, presence_mono h6 k v⟩

/-- The initial bundle has the six keys. -/
theorem sixKeysPresent_init : sixKeysPresent initFacts :=
  ⟨rfl, rfl, rfl, rfl, rfl, rfl⟩

/-- A conditional dict assignment preserves the six keys. -/
theorem step_preserve {b : Bundle} (c : Prop) [Decidable c] (k : String) (v : Fact)
    (h : sixKeysPresent b) : sixKeysPresent (if c then setKey b k v else b) := by
  by_cases hc : c
  · simp only [hc, if_true]; exact sixKeysPresent_setKey h k v
  · simp only [hc, if_false]; exact h

/-- A conditional assignment to a key other than `ansible_net_interfaces`
does not change that key's lookup. -/
theorem step_absent (b : Bundle) (c : Prop) [Decidable c] (k : String) (v : Fact)
    (hk : k ≠ "ansible_net_interfaces") :
    lookupKey (if c then setKey b k v else b) "ansible_net_interfaces" =
      lookupKey b "ansible_net_interfaces" := by
  by_cases hc : c
  · simp only [hc, if_true]; exact lookupKey_setKey_ne _ _ _ _ hk
  · simp only [hc, if_false]

/-- The MAC-table block preserves the six keys. -/
theorem stepMac_keys {dev : Device} {ft : String} {b : Bundle} (h : sixKeysPresent b) :
    sixKeysPresent (stepMac dev ft b) := by
  unfold stepMac; exact step_preserve _ _ _ h

/-- The routes block preserves the six keys. -/
theorem stepRoutes_keys {dev : Device} {ft os : String} {b : Bundle} (h : sixKeysPresent b) :
    sixKeysPresent (stepRoutes dev ft os b) := by
  unfold stepRoutes; exact step_preserve _ _ _ h

/-- The route-neighbor block preserves the six keys. -/
theorem stepNeighbors_keys {dev : Device} {ft : String} {b : Bundle} (h : sixKeysPresent b) :
    sixKeysPresent (stepNeighbors dev ft b) := by
  unfold stepNeighbors; exact step_preserve _ _ _ h

/-- The MAC-table block never touches the interfaces key. -/
theorem stepMac_iface (dev : Device) (ft : String) (b : Bundle) :
    lookupKey (stepMac dev ft b) "ansible_net_interfaces" =
      lookupKey b "ansible_net_interfaces" := by
  unfold stepMac; exact step_absent _ _ _ _ (by decide)

/-- The routes block never touches the interfaces key. -/
theorem stepRoutes_iface (dev : Device) (ft os : String) (b : Bundle) :
    lookupKey (stepRoutes dev ft os b) "ansible_net_interfaces" =
      lookupKey b "ansible_net_interfaces" := by
  unfold stepRoutes; exact step_absent _ _ _ _ (by decide)

/-- The route-neighbor block never touches the interfaces key. -/
theorem stepNeighbors_iface (dev : Device) (ft : String) (b : Bundle) :
    lookupKey (stepNeighbors dev ft b) "ansible_net_interfaces" =
      lookupKey b "ansible_net_interfaces" := by
  unfold stepNeighbors; exact step_absent _ _ _ _ (by decide)

/-- C1 amended: whenever `run_module` succeeds, the six initialized keys
(inventory, license, mac_address_table, routes, route_neighbors, vrfs) are
present in the bundle, but the `ansible_net_interfaces` key is present if
and only if the normalized selector is `interfaces`, or is `all` on a
detected dialect-B device — it is not always present. -/
theorem C1_amended (dev : Device) (ftp : Option String) (b : Bundle)
    (h : runModule dev ftp = .ok b) :
    sixKeysPresent b ∧
    (∃ os, detectOperatingSystem dev = .ok os ∧
      ((lookupKey b "ansible_net_interfaces").isSome = true ↔
        (normalizeFactType ftp = "interfaces" ∨
         (normalizeFactType ftp = "all" ∧ os = "NXOS")))) := by
  unfold runModule at h
  simp only [Bind.bind] at h
  obtain ⟨os, hos, h⟩ := bind_ok_ex h
  obtain ⟨f1, hf1, h⟩ := bind_ok_ex h
  obtain ⟨f2, hf2, h⟩ := bind_ok_ex h
  obtain ⟨f3, hf3, h⟩ := bind_ok_ex h
  have Hf1 : sixKeysPresent f1 ∧
      ((lookupKey f1 "ansible_net_interfaces").isSome = true ↔
        (normalizeFactType ftp = "interfaces" ∨
         (normalizeFactType ftp = "all" ∧ os = "NXOS"))) := by
    unfold stepInterfaces at hf1
    split at hf1
    case isTrue hc =>
      obtain ⟨ifs, hifs, hf1⟩ := bind_ok_ex hf1
      simp only [pure, Except.pure, Except.ok.injEq] at hf1
      subst hf1
      refine ⟨sixKeysPresent_setKey sixKeysPresent_init _ _, ?_⟩
      rw [lookupKey_setKey_self]
      simp [hc]
    case isFalse hc =>
      simp only [pure, Except.pure, Except.ok.injEq] at hf1
      subst hf1
      refine ⟨sixKeysPresent_init, ?_⟩
      constructor
      · intro habs; simp [lookupKey, initFacts] at habs
      · intro hcond; exact absurd hcond hc
  have Hf2 : sixKeysPresent f2 ∧
      lookupKey f2 "ansible_net_interfaces" = lookupKey f1 "ansible_net_interfaces" := by
    unfold stepInventory at hf2
    split at hf2
    · obtain ⟨inv, hinv, hf2⟩ := bind_ok_ex hf2
      simp only [pure, Except.pure, Except.ok.injEq] at hf2
      subst hf2
      exact ⟨sixKeysPresent_setKey Hf1.1 _ _, lookupKey_setKey_ne _ _ _ _ (by decide)⟩
    · simp only [pure, Except.pure, Except.ok.injEq] at hf2
      subst hf2
      exact ⟨Hf1.1, rfl⟩
  have Hf3 : sixKeysPresent f3 ∧
      lookupKey f3 "ansible_net_interfaces" = lookupKey f2 "ansible_net_interfaces" := by
    unfold stepLicense at hf3
    split at hf3
    · obtain ⟨lic, hlic, hf3⟩ := bind_ok_ex hf3
      simp only [pure, Except.pure, Except.ok.injEq] at hf3
      subst hf3
      exact ⟨sixKeysPresent_setKey Hf2.1 _ _, lookupKey_setKey_ne _ _ _ _ (by decide)⟩
    · simp only [pure, Except.pure, Except.ok.injEq] at hf3
      subst hf3
      exact ⟨Hf2.1, rfl⟩
  have H6 : sixKeysPresent (stepNeighbors dev (normalizeFactType ftp)
      (stepRoutes dev (normalizeFactType ftp) os (stepMac dev (normalizeFactType ftp) f3))) :=
    stepNeighbors_keys (stepRoutes_keys (stepMac_keys Hf3.1))
  have H6i : lookupKey (stepNeighbors dev (normalizeFactType ftp)
      (stepRoutes dev (normalizeFactType ftp) os (stepMac dev (normalizeFactType ftp) f3)))
      "ansible_net_interfaces" = lookupKey f3 "ansible_net_interfaces" := by
    rw [stepNeighbors_iface, stepRoutes_iface, stepMac_iface]
  have Hb : sixKeysPresent b ∧
      lookupKey b "ansible_net_interfaces" = lookupKey f3 "ansible_net_interfaces" := by
    unfold stepVrfs at h
    split at h
    · obtain ⟨vs, hvs, h⟩ := bind_ok_ex h
      simp only [pure, Except.pure, Except.ok.injEq] at h
      subst h
      exact ⟨sixKeysPresent_setKey H6 _ _,
        by rw [lookupKey_setKey_ne _ _ _ _ (by decide)]; exact H6i⟩
    · simp only [pure, Except.pure, Except.ok.injEq] at h
      subst h
      exact ⟨H6, H6i⟩
  refine ⟨Hb.1, os, hos, ?_⟩
  rw [Hb.2, Hf3.2, Hf2.2]
  exact Hf1.2

/-- Witness for C1 amended at `devC1` with selector `all`. -/
theorem C1_witness :
    sixKeysPresent c1bundle ∧
    (∃ os, detectOperatingSystem devC1 = .ok os ∧
      ((lookupKey c1bundle "ansible_net_interfaces").isSome = true ↔
        (normalizeFactType (some "all") = "interfaces" ∨
         (normalizeFactType (some "all") = "all" ∧ os = "NXOS")))) :=
  C1_amended devC1 (some "all") c1bundle rfl

/-- Route dicts emitted by the dialect-A non-OSPF loop have only non-null
hops in their next-hop list (possibly no list at all). -/
theorem iosNonOspf_good {rt : String} {fl : Char} : ∀ {lines : List String} {routes : List Route},
    iosNonOspfLoop rt fl lines = .ok routes → ∀ r ∈ routes, routeHopsNonNull r := by
  intro lines
  induction lines with
  | nil => intro routes h; cases h; intro r hr; cases hr
  | cons line rest ih =>
    intro routes h
    rw [iosNonOspfLoop] at h
    split at h
    · simp only [Bind.bind] at h
      obtain ⟨s1, hs1, h⟩ := bind_ok_ex h
      obtain ⟨keep, hkeep, h⟩ := bind_ok_ex h
      split at h
      · split at h
        · obtain ⟨last, hlast, h⟩ := bind_ok_ex h
          obtain ⟨nh, hnh, h⟩ := bind_ok_ex h
          obtain ⟨rs, hrs, h⟩ := bind_ok_ex h
          simp only [pure, Except.pure, Except.ok.injEq] at hnh h
          subst hnh h
          intro r hr
          rcases List.mem_cons.mp hr with hr | hr
          · subst hr
            intro hp hmem
            simp only [Option.getD_some, List.mem_singleton] at hmem
            subst hmem
            rfl
          · exact ih hrs r hr
        · split at h
          · obtain ⟨s4, hs4, h⟩ := bind_ok_ex h
            obtain ⟨nh, hnh, h⟩ := bind_ok_ex h
            obtain ⟨rs, hrs, h⟩ := bind_ok_ex h
            simp only [pure, Except.pure, Except.ok.injEq] at hnh h
            subst hnh h
            intro r hr
            rcases List.mem_cons.mp hr with hr | hr
            · subst hr
              intro hp hmem
              simp only [Option.getD_some, List.mem_singleton] at hmem
              subst hmem
              rfl
            · exact ih hrs r hr
          · obtain ⟨nh, hnh, h⟩ := bind_ok_ex h
            obtain ⟨rs, hrs, h⟩ := bind_ok_ex h
            simp only [pure, Except.pure, Except.ok.injEq] at hnh h
            subst hnh h
            intro r hr
            rcases List.mem_cons.mp hr with hr | hr
            · subst hr
              intro hp hmem
              cases hmem
            · exact ih hrs r hr
      · exact ih h
    · exact ih h

/-- Route dicts emitted by the dialect-A OSPF loop have only non-null hops. -/
theorem iosOspf_good : ∀ {lines : List String} {fl : Bool} {rt : String} {routes : List Route},
    iosOspfLoop fl rt lines = .ok routes → ∀ r ∈ routes, routeHopsNonNull r := by
  intro lines
  induction lines with
  | nil => intro fl rt routes h; cases h; intro r hr; cases hr
  | cons line rest ih =>
    intro fl rt routes h
    rw [iosOspfLoop] at h
    split at h
    · simp only [Bind.bind] at h
      split at h
      · obtain ⟨r1, hr1, h⟩ := bind_ok_ex h
        exact ih h
      · obtain ⟨rn, hrn, h⟩ := bind_ok_ex h
        obtain ⟨a, ha, h⟩ := bind_ok_ex h
        split at h
        · obtain ⟨last, hlast, h⟩ := bind_ok_ex h
          obtain ⟨rs, hrs, h⟩ := bind_ok_ex h
          simp only [pure, Except.pure, Except.ok.injEq] at h
          subst h
          intro r hr
          rcases List.mem_cons.mp hr with hr | hr
          · subst hr
            intro hp hmem
            simp only [Option.getD_some, List.mem_singleton] at hmem
            subst hmem
            rfl
          · exact ih hrs r hr
        · exact ih h
    · split at h
      · simp only [Bind.bind] at h
        obtain ⟨a, ha, h⟩ := bind_ok_ex h
        split at h
        · obtain ⟨s2, hs2, h⟩ := bind_ok_ex h
          obtain ⟨last, hlast, h⟩ := bind_ok_ex h
          obtain ⟨rs, hrs, h⟩ := bind_ok_ex h
          simp only [pure, Except.pure, Except.ok.injEq] at h
          subst h
          intro r hr
          rcases List.mem_cons.mp hr with hr | hr
          · subst hr
            intro hp hmem
            simp only [Option.getD_some, List.mem_singleton] at hmem
            subst hmem
            rfl
          · exact ih hrs r hr
        · exact ih h
      · exact ih h

/-- Every hop produced by the dialect-B `via`-line parser is non-null. -/
theorem nxosParseHop_good {rt line : String} {h : NextHop}
    (hh : nxosParseHop rt line = .ok h) : hopNonNull h = true := by
  unfold nxosParseHop at hh
  simp only [Bind.bind] at hh
  obtain ⟨s1, hs1, hh⟩ := bind_ok_ex hh
  split at hh
  · split at hh
    · split at hh
      · simp only [pure, Except.pure, Except.ok.injEq] at hh
        subst hh
        rfl
      · simp only [pure, Except.pure, Except.ok.injEq] at hh
        subst hh
        rfl
    · simp only [pure, Except.pure, Except.ok.injEq] at hh
      subst hh
      rfl
  · simp only [pure, Except.pure, Except.ok.injEq] at hh
    subst hh
    rfl

/-- The `ubest` flush preserves hop non-nullness of the stored route dicts
and empties the hop accumulator. -/
theorem nxosFlush_good {st : NxState}
    (hstore : ∀ r ∈ st.store, routeHopsNonNull r)
    (hhops : ∀ h ∈ st.next_hops, hopNonNull h = true) :
    (∀ r ∈ (nxosFlush st).store, routeHopsNonNull r) ∧ (nxosFlush st).next_hops = [] := by
  unfold nxosFlush
  split
  · constructor
    · intro r hr
      rcases List.mem_or_eq_of_mem_set hr with hr | hr
      · exact hstore r hr
      · subst hr
        intro hp hmem
        simp only [setHops, Option.getD_some] at hmem
        exact hhops hp hmem
    · rfl
  · exact ⟨hstore, rfl⟩

/-- The dialect-B loop preserves hop non-nullness of its state. -/
theorem nxosLoop_good {rt : String} : ∀ {lines : List String} {st st' : NxState},
    nxosLoop rt st lines = .ok st' →
    (∀ r ∈ st.store, routeHopsNonNull r) →
    (∀ h ∈ st.next_hops, hopNonNull h = true) →
    (∀ r ∈ st'.store, routeHopsNonNull r) ∧ (∀ h ∈ st'.next_hops, hopNonNull h = true) := by
  intro lines
  induction lines with
  | nil =>
    intro st st' h hstore hhops
    cases h
    exact ⟨hstore, hhops⟩
  | cons line rest ih =>
    intro st st' h hstore hhops
    rw [nxosLoop] at h
    split at h
    · simp only [Bind.bind] at h
      obtain ⟨h0, hh0, h⟩ := bind_ok_ex h
      obtain ⟨keep, hkeep, h⟩ := bind_ok_ex h
      obtain ⟨hfl, hfe⟩ := nxosFlush_good hstore hhops
      split at h
      · refine ih h ?_ ?_
        · intro r hr
          rcases List.mem_append.mp hr with hr | hr
          · exact hfl r hr
          · simp only [List.mem_singleton] at hr
            subst hr
            intro hp hmem
            cases hmem
        · simp only [hfe]
          intro hp hmem
          cases hmem
      · refine ih h hfl ?_
        simp only [hfe]
        intro hp hmem
        cases hmem
    · split at h
      · split at h
        · simp only [Bind.bind] at h
          obtain ⟨hop, hhop, h⟩ := bind_ok_ex h
          refine ih h hstore ?_
          intro hp hmem
          rcases List.mem_append.mp hmem with hm | hm
          · exact hhops hp hm
          · simp only [List.mem_singleton] at hm
            subst hm
            exact nxosParseHop_good hhop
        · exact ih h hstore hhops
      · exact ih h hstore hhops

/-- Every route in a successful dialect-B parse has only non-null hops. -/
theorem parseRoutesNxos_good {rt : String} {lines : List String} {routes : List Route}
    (h : parseRoutesNxos rt lines = .ok routes) : ∀ r ∈ routes, routeHopsNonNull r := by
  unfold parseRoutesNxos at h
  simp only [Bind.bind] at h
  obtain ⟨st, hst, h⟩ := bind_ok_ex h
  obtain ⟨st2, hst2, h⟩ := bind_ok_ex h
  simp only [pure, Except.pure, Except.ok.injEq] at h
  subst h
  have good := nxosLoop_good hst (by intro r hr; cases hr) (by intro hp hm; cases hm)
  have good2 : ∀ r ∈ st2.store, routeHopsNonNull r := by
    unfold nxosFlushFinal at hst2
    split at hst2
    · cases hst2
      exact good.1
    · split at hst2
      · cases hst2
        intro r hr
        rcases List.mem_or_eq_of_mem_set hr with hr | hr
        · exact good.1 r hr
        · subst hr
          intro hp hmem
          simp only [setHops, Option.getD_some] at hmem
          exact good.2 hp hmem
      · cases hst2
  intro r hr
  obtain ⟨i, hi, hgd⟩ := List.mem_map.mp hr
  subst hgd
  rw [List.getD_eq_getD_get? st2.store emptyRoute i]
  cases hg : st2.store.get? i with
  | none =>
    intro hp hmem
    cases hmem
  | some r0 =>
    simp only [Option.getD_some]
    exact good2 r0 (List.get?_mem hg)

/-- C2 counterexample: a dialect-A static route line containing neither
`directly connected` nor ` via ` yields a Route with no next-hop list at all
(the `next_hop` key is absent), contradicting the claim that every emitted
Route carries a non-empty next-hop list. -/
theorem C2_counterexample :
    _get_routes_ios devBare "static" none =
      .ok [{ route := "10.0.0.0/8", kind := "Static", next_hop := none }] := rfl

/-- C2 amended: every `NextHop` appearing in any route emitted by either
route parser has at least one of address/interface non-null; however a Route
may carry an absent next-hop key (dialect A, line with neither phrase) or an
empty next-hop list (dialect B, `ubest` block with no `via` line), so the
non-empty part of the claim fails. -/
theorem C2_next_hops_non_null :
    (∀ (dev : Device) (rt : String) (vrf : Option String) (routes : List Route),
      _get_routes_ios dev rt vrf = .ok routes → ∀ r ∈ routes, routeHopsNonNull r) ∧
    (∀ (dev : Device) (rt : String) (vrf : Option String) (routes : List Route),
      _get_routes_nxos dev rt vrf = .ok routes → ∀ r ∈ routes, routeHopsNonNull r) := by
  constructor
  · intro dev rt vrf routes h
    unfold _get_routes_ios at h
    simp only [Bind.bind] at h
    obtain ⟨out, hout, h⟩ := bind_ok_ex h
    obtain ⟨o, ho, h⟩ := bind_ok_ex h
    unfold parseRoutesIos at h
    split at h
    · simp only [Bind.bind] at h
      split at h
      · simp [Except.bind] at h
      · simp only [Except.bind] at h
        exact iosNonOspf_good h
    · exact iosOspf_good h
  · intro dev rt vrf routes h
    unfold _get_routes_nxos at h
    simp only [Bind.bind] at h
    obtain ⟨out, hout, h⟩ := bind_ok_ex h
    obtain ⟨o, ho, h⟩ := bind_ok_ex h
    exact parseRoutesNxos_good h

/-- Witness for C2 amended: the hop of the directly-connected static route
on `devStatic`, obtained through the theorem. -/
theorem C2_witness :
    hopNonNull { address := none, interface := some "Vlan10" } = true :=
  C2_next_hops_non_null.1 devStatic "static" none
    [{ route := "10.0.0.0/8", kind := "Static",
       next_hop := some [{ address := none, interface := some "Vlan10" }] }] rfl
    { route := "10.0.0.0/8", kind := "Static",
      next_hop := some [{ address := none, interface := some "Vlan10" }] }
    (List.mem_singleton.mpr rfl)
    { address := none, interface := some "Vlan10" } (List.Mem.head _)

/-- C4 amended: on a two-line OSPF entry whose first line has fewer than 3
tokens (`O    172.16.5.0/24`), the continuation line's third token
(comma-stripped) becomes the next-hop address and its last token the
outgoing interface, yielding exactly one Route; a first line with 3 or more
tokens (as in the claim's example) instead takes the inline branch and
raises on a missing token 4 (see the counterexample). -/
theorem C4_amended (cont a l : String)
    (h1 : pyStartsWith cont "O " = false) (h2 : pyStartsWith cont "O*" = false)
    (h3 : (pySplit cont).get? 2 = some a) (h4 : pyLast (pySplit cont) = .ok l) :
    parseRoutesIos "OSPF" ["O    172.16.5.0/24", cont] =
      .ok [{ route := "172.16.5.0/24", kind := "OSPF",
             next_hop := some [{ address := some (pyRemoveChars a [',']), interface := some l }] }] := by
  have step1 : parseRoutesIos "OSPF" ["O    172.16.5.0/24", cont]
      = iosOspfLoop false "172.16.5.0/24" [cont] := rfl
  have hga : pyGet (pySplit cont) 2 = Except.ok a := by unfold pyGet; rw [h3]
  have hp : pyIPv4Address (pyHeadSplit "172.16.5.0/24" '/') = .ok (172, 16, 5, 0) := rfl
  rw [step1]
  simp only [iosOspfLoop, h1, h2, Bool.or_self, Bool.not_false, if_true, if_false,
    Bool.false_eq_true, ite_false, ite_true, hp, hga, h4]
  rfl

/-- Witness for C4 amended on a realistic continuation line. -/
theorem C4_witness :
    parseRoutesIos "OSPF"
      ["O    172.16.5.0/24", "           [110/2] via 10.0.0.1, 3d05h, TenGigabitEthernet0/1"] =
      .ok [{ route := "172.16.5.0/24", kind := "OSPF",
             next_hop := some [{ address := some "10.0.0.1", interface := some "TenGigabitEthernet0/1" }] }] :=
  C4_amended "           [110/2] via 10.0.0.1, 3d05h, TenGigabitEthernet0/1"
    "10.0.0.1," "TenGigabitEthernet0/1" rfl rfl rfl rfl

/-- A successful hop parse of each line gives as many hops as lines. -/
theorem mapHops_length {rt : String} : ∀ {vs : List String} {hs : List NextHop},
    mapHops rt vs = .ok hs → hs.length = vs.length := by
  intro vs
  induction vs with
  | nil => intro hs h; cases h; rfl
  | cons v t ih =>
    intro hs h
    cases hh : nxosParseHop rt v with
    | error e => rw [mapHops, hh] at h; cases h
    | ok x =>
      rw [mapHops, hh] at h
      cases hm : mapHops rt t with
      | error e => rw [hm] at h; cases h
      | ok xs => rw [hm] at h; cases h; simp [ih hm]

/-- Running the dialect-B loop over a run of pure `via` lines (no `ubest`)
with a current route dict appends exactly those lines' hops to the
accumulator. -/
theorem nxosLoop_via_run (rt : String) (vs : List String)
    (hv : ∀ v ∈ vs, containsSub v "ubest" = false ∧ containsSub v "via" = true) :
    ∀ (st : NxState) (i : Nat), st.route_obj = some i → ∀ rest,
      nxosLoop rt st (vs ++ rest) =
        (mapHops rt vs).bind
          (fun hs => nxosLoop rt { st with next_hops := st.next_hops ++ hs } rest) := by
  induction vs with
  | nil =>
    intro st i hi rest
    simp [mapHops, Except.bind]
  | cons v t ih =>
    intro st i hi rest
    obtain ⟨hub, hvia⟩ := hv v (List.mem_cons_self v t)
    have hv' : ∀ x ∈ t, containsSub x "ubest" = false ∧ containsSub x "via" = true :=
      fun x hx => hv x (List.mem_cons_of_mem v hx)
    rw [List.cons_append, nxosLoop, hub, hvia]
    simp only [Bool.false_eq_true, if_false, if_true, hi]
    cases hh : nxosParseHop rt v with
    | error e => simp [mapHops, hh, Except.bind, Bind.bind, Functor.map, Except.map]
    | ok h =>
      simp only [hh, Except.bind, Bind.bind]
      rw [ih hv' ⟨st.store, st.order, some i, st.next_hops ++ [h]⟩ i rfl rest]
      cases hm : mapHops rt t with
      | error e => simp [mapHops, hh, hm, Except.bind, Bind.bind, Functor.map, Except.map]
      | ok hs => simp [mapHops, hh, hm, Except.bind, Bind.bind, Functor.map, Except.map,
          pure, Except.pure, List.append_assoc]

/-- C5 counterexample: with a first (private) `ubest` block followed by a
second block that fails the privacy filter, the second block's `via` line is
attributed to the first block's route dict, which is also emitted twice —
`via` lines do leak across blocks. -/
theorem C5_counterexample :
    parseRoutesNxos "OSPF"
      ["10.0.0.0/8, ubest/mbest: 1/0", "    *via 10.0.0.1, Eth1/1, [110/2], 3d, ospf-1",
       "8.8.8.0/24, ubest/mbest: 1/0", "    *via 9.9.9.9, Eth1/2, [110/2], 3d, ospf-1"] =
      .ok [{ route := "10.0.0.0/8", kind := "OSPF",
             next_hop := some [{ address := some "9.9.9.9", interface := some "Eth1/2" }] },
           { route := "10.0.0.0/8", kind := "OSPF",
             next_hop := some [{ address := some "9.9.9.9", interface := some "Eth1/2" }] }] := rfl

/-- C5 amended: when both `ubest` blocks pass the collection filter and the
trailing block has at least one `via` line, the parser emits exactly one
Route per block, each with precisely its own block's hops; the claim's
"for any combination of blocks passing or failing the filter" fails (see the
counterexample). -/
theorem C5_amended (vs1 vs2 : List String) (hs1 hs2 : List NextHop)
    (hv : ∀ v ∈ vs1 ++ vs2, containsSub v "ubest" = false ∧ containsSub v "via" = true)
    (hne : vs2 ≠ [])
    (hm1 : mapHops "OSPF" vs1 = .ok hs1) (hm2 : mapHops "OSPF" vs2 = .ok hs2) :
    parseRoutesNxos "OSPF"
        ("10.0.0.0/8, ubest/mbest: 1/0" :: vs1 ++ "172.16.0.0/12, ubest/mbest: 1/0" :: vs2) =
      .ok [{ route := "10.0.0.0/8", kind := "OSPF", next_hop := some hs1 },
           { route := "172.16.0.0/12", kind := "OSPF", next_hop := some hs2 }] := by
  have hv1 : ∀ v ∈ vs1, containsSub v "ubest" = false ∧ containsSub v "via" = true :=
    fun v hx => hv v (List.mem_append_left _ hx)
  have hv2 : ∀ v ∈ vs2, containsSub v "ubest" = false ∧ containsSub v "via" = true :=
    fun v hx => hv v (List.mem_append_right _ hx)
  have hs2ne : hs2 ≠ [] := by
    intro hnil
    have := mapHops_length hm2
    rw [hnil] at this
    cases vs2 with
    | nil => exact hne rfl
    | cons a b => exact absurd this.symm (by simp)
  have hs2e : hs2.isEmpty = false := by
    cases hs2 with
    | nil => exact absurd rfl hs2ne
    | cons a b => rfl
  have e1 : nxosLoop "OSPF" ⟨[], [], none, []⟩
        ("10.0.0.0/8, ubest/mbest: 1/0" :: vs1 ++ "172.16.0.0/12, ubest/mbest: 1/0" :: vs2)
      = nxosLoop "OSPF" ⟨[{ route := "10.0.0.0/8", kind := "OSPF", next_hop := none }], [], some 0, []⟩
        (vs1 ++ "172.16.0.0/12, ubest/mbest: 1/0" :: vs2) := rfl
  have e2 := nxosLoop_via_run "OSPF" vs1 hv1
    ⟨[{ route := "10.0.0.0/8", kind := "OSPF", next_hop := none }], [], some 0, []⟩ 0 rfl
    ("172.16.0.0/12, ubest/mbest: 1/0" :: vs2)
  have e3 : ∀ hs1' : List NextHop,
      nxosLoop "OSPF" ⟨[{ route := "10.0.0.0/8", kind := "OSPF", next_hop := none }], [], some 0, [] ++ hs1'⟩
        ("172.16.0.0/12, ubest/mbest: 1/0" :: vs2)
      = nxosLoop "OSPF"
          ⟨[{ route := "10.0.0.0/8", kind := "OSPF", next_hop := some hs1' },
            { route := "172.16.0.0/12", kind := "OSPF", next_hop := none }], [0], some 1, []⟩ vs2 :=
    fun hs1' => rfl
  have e4 := nxosLoop_via_run "OSPF" vs2 hv2
    ⟨[{ route := "10.0.0.0/8", kind := "OSPF", next_hop := some hs1 },
      { route := "172.16.0.0/12", kind := "OSPF", next_hop := none }], [0], some 1, []⟩ 1 rfl []
  rw [List.append_nil] at e4
  simp only [parseRoutesNxos, e1, e2, hm1, Except.bind, Bind.bind]
  rw [e3 hs1]
  simp only [e4, hm2, Except.bind]
  simp only [nxosLoop, nxosFlushFinal, List.nil_append, hs2e, Bool.false_eq_true, if_false,
    Except.bind, Bind.bind, pure, Except.pure]
  rfl

/-- Witness for C5 amended with one `via` line per block. -/
theorem C5_witness :
    parseRoutesNxos "OSPF"
        ("10.0.0.0/8, ubest/mbest: 1/0" :: ["    *via 10.0.0.1, Eth1/1"] ++
         "172.16.0.0/12, ubest/mbest: 1/0" :: ["    *via 10.0.0.2, Eth1/2"]) =
      .ok [{ route := "10.0.0.0/8", kind := "OSPF",
             next_hop := some [{ address := some "10.0.0.1", interface := some "Eth1/1" }] },
           { route := "172.16.0.0/12", kind := "OSPF",
             next_hop := some [{ address := some "10.0.0.2", interface := some "Eth1/2" }] }] :=
  C5_amended ["    *via 10.0.0.1, Eth1/1"] ["    *via 10.0.0.2, Eth1/2"]
    [{ address := some "10.0.0.1", interface := some "Eth1/1" }]
    [{ address := some "10.0.0.2", interface := some "Eth1/2" }]
    (by decide) (by decide) rfl rfl

/-- C3 counterexample: on a device where only the `show inventory` command
fails, `run_module` with selector `all` fails as a whole with that command
error — the inventory extractor's exception is not caught, contradicting the
claim that any single extractor failure is converted to an absent value and
the remaining fact types are still collected. -/
theorem C3_counterexample : runModule devC3 (some "all") = .error .commandError := rfl

/-- C3 amended: exception isolation holds only for the wrapped extractor
calls — MAC address table, each route kind, and route neighbors.  On a
device where all four route commands and the OSPF neighbor command fail and
the MAC-table output is malformed, `run_module` still succeeds, with those
three fact keys explicitly null and the unwrapped extractors (inventory,
license, vrfs) populated; failures of the unwrapped extractors or of the
version banner are fatal. -/
theorem C3_amended :
    runModule devIso (some "all") =
      .ok [("ansible_net_inventory", Fact.inventory []), ("ansible_net_license", Fact.str ""),
           ("ansible_net_mac_address_table", Fact.null), ("ansible_net_routes", Fact.null),
           ("ansible_net_route_neighbors", Fact.null), ("ansible_net_vrfs", Fact.vrfs [])] := rfl

/-- C4 counterexample: on exactly the two-line input of the claim, the first
line `O    172.16.5.0/24 [110/2]` has three whitespace-separated tokens, so
the parser takes the inline branch and reads token index 4, raising
`IndexError` instead of yielding one Route. -/
theorem C4_counterexample :
    parseRoutesIos "OSPF" ["O    172.16.5.0/24 [110/2]", "via 10.0.0.1, TenGigabitEthernet0/1"] =
      .error .indexError := rfl

/-- C6 counterexample: a `PID:` line with exactly 5 tokens after comma
removal makes `get_inventory` raise `IndexError` (token index 5 is read
whenever more than 4 tokens are present), rather than leaving the
unlocatable fields null. -/
theorem C6_counterexample : get_inventory devPid5 = .error .indexError := rfl

/-- C6 amended: parse mismatch is not uniformly best-effort.  An OSPF
neighbor row that does not split into exactly 6 columns raises `ValueError`
and aborts `get_route_neighbors`; a `PID:` line with more than 4 but fewer
than 6 tokens raises `IndexError` (see the counterexample).  Only a `PID:`
line with at most 4 tokens is tolerated, yielding null `vid`/`sn`. -/
theorem C6_amended :
    get_route_neighbors devNbr = .error .valueError ∧
    get_inventory devPid4 =
      .ok [{ name := "Chassis", description := "D", pid := "ASR1000", vid := none, sn := none }] :=
  ⟨rfl, rfl⟩

/-- C8 counterexample: `format_mac_address` requires 12 alphanumeric (not
hexadecimal) characters, so the non-hex string `zzzzzzzzzzzz` is not
returned unchanged but canonicalized. -/
theorem C8_counterexample :
    format_mac_address "zzzzzzzzzzzz" = "zz:zz:zz:zz:zz:zz" ∧
    "zz:zz:zz:zz:zz:zz" ≠ "zzzzzzzzzzzz" := ⟨rfl, by decide⟩

/-- C8 amended: `format_mac_address` returns its input unchanged (and, being
total, never raises) for every input that does not strip to exactly 12
alphanumeric characters once `.`, `:`, `-` and whitespace are removed;
inputs stripping to 12 alphanumeric characters are canonicalized even when
not hexadecimal. -/
theorem C8_amended (s : String)
    (h : ((stripMacChars s.data).length == 12 && (stripMacChars s.data).all Char.isAlphanum) = false) :
    format_mac_address s = s := by
  simp [format_mac_address, h]

/-- Witness for C8 amended at the spec's example input `"not-a-mac"`. -/
theorem C8_amended_witness : format_mac_address "not-a-mac" = "not-a-mac" :=
  C8_amended "not-a-mac" rfl

/-- C10: `run_module` with any unrecognized fact-type selector produces
exactly the same bundle as with selector `all`, on every device: the invalid
selector is normalized to `all` before any dispatch. -/
theorem C10_invalid_selector_is_all (dev : Device) (ft : String) (h : ft ∉ validFactTypes) :
    runModule dev (some ft) = runModule dev (some "all") := by
  have h1 : normalizeFactType (some ft) = "all" := by simp [normalizeFactType, h]
  have h2 : normalizeFactType (some "all") = "all" := by simp [normalizeFactType, validFactTypes]
  unfold runModule
  rw [h1, h2]

/-- Witness for C10 at the selector `"bogus"` and a concrete device. -/
theorem C10_witness : runModule devAny (some "bogus") = runModule devAny (some "all") :=
  C10_invalid_selector_is_all devAny "bogus" (by decide)

end CiscoFacts
